import Mathlib

/-!
Shallow embedding of the attendance-management backend
(`src/backend/main.py`).

Conventions:
* Timestamps are integers counting seconds.  `DATE_TRUNC('day', t)` is
  modelled by `dayStart`, flooring `t` to a multiple of 86400; the SQL
  intervals `'120 minutes'` and `'9 hour'` are 7200 and 32400 seconds.
* A table is a list of rows.  A SQL `UPDATE ... WHERE p` rewrites exactly
  the rows satisfying `p` (modelled as `List.map` of a per-row function);
  `RETURNING ... / fetchone()` yields the first matching row
  (`List.find?`).  Each operation returns the endpoint outcome paired with
  the table state after the transaction; on an error response the table is
  returned unchanged (the transaction is never committed in that case, and
  the failing statements match no rows).
* Floating-point latitude/longitude values are never computed with by the
  backend, only stored and echoed back, so they are carried as
  uninterpreted `Option Int` payloads.
* IP addresses and networks are parsed by Python's `ipaddress` library, an
  external collaborator; `is_office_network` is therefore embedded
  relative to arbitrary parsing and containment functions, mirroring the
  control flow of the Python function exactly.
-/

/-- Row of the `attendance` table (see `ensure_schema` in
`src/backend/main.py`): id, owning user, check-in time, nullable check-out
time, status string (`present`/`late`/`absent`), nullable notes and
coordinates, creation time. -/
structure AttendanceRecord where
  id : Nat
  user_id : Nat
  check_in_time : Int
  check_out_time : Option Int
  status : String
  notes : Option String
  latitude : Option Int
  longitude : Option Int
  created_at : Int
  deriving DecidableEq, Repr

/-- The `attendance` table. -/
abbrev AttendanceDb := List AttendanceRecord

/-- Row of the `leaves` table: id, requesting user, date range, reason,
status string (`pending`/`approved`/`rejected`), nullable admin note and
approver, timestamps. -/
structure LeaveRow where
  id : Nat
  user_id : Nat
  start_date : Int
  end_date : Int
  reason : String
  status : String
  admin_note : Option String
  approved_by : Option Nat
  created_at : Int
  updated_at : Int
  deriving DecidableEq, Repr

/-- The `leaves` table. -/
abbrev LeaveDb := List LeaveRow

/-- Errors surfaced by the endpoints modelled here. -/
inductive ApiError where
  /-- 400 "Already checked in today" (duplicate same-day check-in). -/
  | conflict
  /-- 400 "No open check-in found for this record". -/
  | noOpenRecord
  /-- 403 admin access required. -/
  | forbidden
  /-- 404 "Leave request not found". -/
  | leaveNotFound
  deriving DecidableEq, Repr

/-- `DATE_TRUNC('day', t)`: start of the calendar day containing `t`
(floor of `t` to a multiple of 86400 seconds). -/
def dayStart (t : Int) : Int := 86400 * Int.fdiv t 86400

/-- The `WHERE` predicate of the bulk update in `auto_expire_sessions`:
`check_out_time IS NULL AND check_in_time < NOW() - INTERVAL '120 minutes'
AND status != 'absent'`. -/
def expiryDue (now : Int) (r : AttendanceRecord) : Bool :=
  r.check_out_time == none && decide (r.check_in_time < now - 7200) &&
    r.status != "absent"

/-- Per-row effect of the bulk update in `auto_expire_sessions`:
`SET status = 'absent', check_out_time = check_in_time + INTERVAL '120
minutes'` on rows matching `expiryDue`, identity elsewhere. -/
def expireOne (now : Int) (r : AttendanceRecord) : AttendanceRecord :=
  if expiryDue now r then
    { r with status := "absent", check_out_time := some (r.check_in_time + 7200) }
  else r

/-- The `auto_expire_sessions` maintenance sweep: one bulk conditional
update over the whole `attendance` table. -/
def auto_expire_sessions (now : Int) (db : AttendanceDb) : AttendanceDb :=
  db.map (expireOne now)

/-- The duplicate test of `check_in`: `SELECT id FROM attendance WHERE
user_id = %s AND check_in_time >= DATE_TRUNC('day', NOW())`. -/
def sameDayRow (now : Int) (uid : Nat) (r : AttendanceRecord) : Bool :=
  r.user_id == uid && decide (dayStart now ≤ r.check_in_time)

/-- The `check_in` transaction (`src/backend/main.py`, lines 842-876): if
the user already has a row with check-in on or after the start of the
current day, fail with 400 "Already checked in today" and insert nothing;
otherwise classify the status by `SELECT NOW() > DATE_TRUNC('day', NOW())
+ INTERVAL '9 hour' AS is_late` and insert a new row with null check-out,
the current time as check-in and creation time, and the supplied
coordinates. -/
def check_in (now : Int) (uid newId : Nat) (lat lon : Option Int)
    (db : AttendanceDb) : Except ApiError AttendanceRecord × AttendanceDb :=
  if db.any (sameDayRow now uid) then
    (Except.error ApiError.conflict, db)
  else
    let is_late : Bool := decide (dayStart now + 32400 < now)
    let status_value := if is_late then "late" else "present"
    let r : AttendanceRecord :=
      { id := newId, user_id := uid, check_in_time := now,
        check_out_time := none, status := status_value, notes := none,
        latitude := lat, longitude := lon, created_at := now }
    (Except.ok r, db ++ [r])

/-- The full check-in endpoint: the handler first runs
`auto_expire_sessions()` and then the check-in transaction. -/
def check_in_endpoint (now : Int) (uid newId : Nat) (lat lon : Option Int)
    (db : AttendanceDb) : Except ApiError AttendanceRecord × AttendanceDb :=
  check_in now uid newId lat lon (auto_expire_sessions now db)

/-- The `WHERE` predicate of the checkout update: `id = %s AND user_id =
%s AND check_out_time IS NULL`. -/
def openRecordFor (rid uid : Nat) (r : AttendanceRecord) : Bool :=
  r.id == rid && r.user_id == uid && r.check_out_time == none

/-- Per-row effect of the checkout update: `SET check_out_time = NOW()` on
rows matching `openRecordFor`, identity elsewhere. -/
def checkOutRow (now : Int) (rid uid : Nat) (r : AttendanceRecord) :
    AttendanceRecord :=
  if openRecordFor rid uid r then { r with check_out_time := some now } else r

/-- The `check_out` transaction (`src/backend/main.py`, lines 892-912):
`UPDATE attendance SET check_out_time = NOW() WHERE id = %s AND user_id =
%s AND check_out_time IS NULL RETURNING ...`; when `fetchone()` finds no
updated row, fail with 400 "No open check-in found for this record" and
leave the table unchanged. -/
def check_out (now : Int) (rid uid : Nat) (db : AttendanceDb) :
    Except ApiError AttendanceRecord × AttendanceDb :=
  match db.find? (openRecordFor rid uid) with
  | none => (Except.error ApiError.noOpenRecord, db)
  | some r =>
      (Except.ok { r with check_out_time := some now },
        db.map (checkOutRow now rid uid))

/-- Per-row effect of the leave-approval update: `SET status = %s,
admin_note = %s, approved_by = %s, updated_at = NOW()` on the row whose id
matches, identity elsewhere.  Note the `WHERE` clause tests only the id:
the prior status is not consulted. -/
def approveRow (now : Int) (leaveId adminId : Nat) (newStatus : String)
    (note : Option String) (l : LeaveRow) : LeaveRow :=
  if l.id == leaveId then
    { l with status := newStatus, admin_note := note,
             approved_by := some adminId, updated_at := now }
  else l

/-- The `approve_leave` transaction (`src/backend/main.py`, lines
1023-1045): update the leave row by id (the payload status is restricted
to `approved`/`rejected` by the request model), recording the admin as
approver; when no row matches, fail with 404 "Leave request not found". -/
def approve_leave (now : Int) (leaveId adminId : Nat) (newStatus : String)
    (note : Option String) (db : LeaveDb) :
    Except ApiError LeaveRow × LeaveDb :=
  match db.find? (fun l => l.id == leaveId) with
  | none => (Except.error ApiError.leaveNotFound, db)
  | some l =>
      (Except.ok (approveRow now leaveId adminId newStatus note l),
        db.map (approveRow now leaveId adminId newStatus note))

/-- Outcome of the profile-role lookup performed by `require_admin`:
either the profile row was found (carrying its role column), or no row
exists for the user id, or the lookup raised a persistence error. -/
inductive LookupResult where
  | found (role : String)
  | missing
  | dbError
  deriving DecidableEq, Repr

/-- Role resolution inside `require_admin`: the profile row's role when a
row exists; otherwise (no row, or any exception during the lookup) the
identity-provider metadata role, defaulting to `"member"`. -/
def resolveRole (lookup : LookupResult) (metaRole : Option String) : String :=
  match lookup with
  | .found role => role
  | .missing => metaRole.getD "member"
  | .dbError => metaRole.getD "member"

/-- The `require_admin` dependency (`src/backend/main.py`, lines 271-295):
resolve the role as above, then fail with 403 unless it is `"admin"`. -/
def require_admin (lookup : LookupResult) (metaRole : Option String) :
    Except ApiError Unit :=
  if resolveRole lookup metaRole ≠ "admin" then Except.error ApiError.forbidden
  else Except.ok ()

section NetworkFilter

variable {Ip Net : Type} [DecidableEq Ip]

/-- Python's `"/" in allowed` test: the string holds a `/` character
iff its character list holds one. -/
def containsSlash (s : String) : Bool := s.data.contains '/'

/-- Loop body of `is_office_network`: an entry containing a `/` is parsed
as a CIDR network and matches by containment (a parse failure is skipped,
i.e. the entry matches nothing); any other entry is parsed as a single
address and matches by equality (again, a parse failure matches
nothing). -/
def entryAdmits (parseAddr : String → Option Ip)
    (parseNetwork : String → Option Net) (containsIp : Net → Ip → Bool)
    (client_ip : Ip) (allowed : String) : Bool :=
  if containsSlash allowed then
    match parseNetwork allowed with
    | some net => containsIp net client_ip
    | none => false
  else
    match parseAddr allowed with
    | some a => client_ip == a
    | none => false

/-- The `is_office_network` filter (`src/backend/main.py`, lines 98-124),
relative to the `ipaddress` collaborator: an empty allowlist admits
everything; otherwise a candidate that fails to parse is denied, and the
result is true iff some allowlist entry admits the parsed candidate. -/
def is_office_network (parseAddr : String → Option Ip)
    (parseNetwork : String → Option Net) (containsIp : Net → Ip → Bool)
    (allowed_office_ips : List String) (ip_address : String) : Bool :=
  if allowed_office_ips.isEmpty then true
  else
    match parseAddr ip_address with
    | none => false
    | some client_ip =>
        allowed_office_ips.any
          (entryAdmits parseAddr parseNetwork containsIp client_ip)

end NetworkFilter

/-- Toy address parser used to instantiate the network filter in concrete
evaluations: it recognizes the two strings `"5"` and `"7"`. -/
def wParseAddr (s : String) : Option Nat :=
  if s = "5" then some 5 else if s = "7" then some 7 else none

/-- Toy network parser for concrete evaluations: it recognizes the single
string `"5/9"`, read as the range `[5, 9]`. -/
def wParseNetwork (s : String) : Option (Nat × Nat) :=
  if s = "5/9" then some (5, 9) else none

/-- Toy containment for concrete evaluations: `(lo, hi)` contains the
addresses in `[lo, hi]`. -/
def wContains (net : Nat × Nat) (a : Nat) : Bool := net.1 ≤ a && a ≤ net.2

/-- Concrete open attendance row (checked in at second 0 of its day) used
in concrete evaluations. -/
def demoOpen : AttendanceRecord :=
  { id := 1, user_id := 7, check_in_time := 0, check_out_time := none,
    status := "present", notes := none, latitude := none, longitude := none,
    created_at := 0 }

/-- Concrete recently-opened attendance row used in concrete
evaluations. -/
def demoRecent : AttendanceRecord :=
  { id := 2, user_id := 8, check_in_time := 120, check_out_time := none,
    status := "present", notes := none, latitude := none, longitude := none,
    created_at := 120 }

/-- Concrete closed attendance row used in concrete evaluations. -/
def demoClosed : AttendanceRecord :=
  { id := 3, user_id := 9, check_in_time := 0, check_out_time := some 60,
    status := "late", notes := none, latitude := none, longitude := none,
    created_at := 0 }

/-- Concrete already-absent attendance row used in concrete
evaluations. -/
def demoAbsent : AttendanceRecord :=
  { id := 4, user_id := 10, check_in_time := 0, check_out_time := none,
    status := "absent", notes := none, latitude := none, longitude := none,
    created_at := 0 }

/-- Concrete already-approved leave row used in concrete evaluations. -/
def demoLeave : LeaveRow :=
  { id := 5, user_id := 7, start_date := 0, end_date := 1, reason := "trip",
    status := "approved", admin_note := none, approved_by := some 2,
    created_at := 0, updated_at := 0 }

/-! ### General list helpers -/

theorem get_of_map {α β : Type} (f : α → β) (l : List α) (i : Nat)
    (h : i < l.length) (h2 : i < (l.map f).length) :
    (l.map f).get ⟨i, h2⟩ = f (l.get ⟨i, h⟩) := by
  simp [List.get_eq_getElem]

theorem map_eq_self_of_fixed {α : Type} (f : α → α) :
    ∀ l : List α, (∀ a ∈ l, f a = a) → l.map f = l
  | [], _ => rfl
  | a :: l, h => by
      simp only [List.map_cons]
      rw [h a (List.mem_cons_self a l),
        map_eq_self_of_fixed f l (fun b hb => h b (List.mem_cons_of_mem a hb))]

theorem get_congr {α : Type} {l1 l2 : List α} (h : l1 = l2) (i : Nat)
    (h1 : i < l1.length) (h2 : i < l2.length) :
    l1.get ⟨i, h1⟩ = l2.get ⟨i, h2⟩ := by
  subst h
  rfl

/-! ### The expiry and checkout predicates, propositionally -/

theorem expiryDue_iff (now : Int) (r : AttendanceRecord) :
    expiryDue now r = true ↔
      r.check_out_time = none ∧ r.status ≠ "absent" ∧
        r.check_in_time + 7200 < now := by
  simp only [expiryDue, Bool.and_eq_true, beq_iff_eq, decide_eq_true_eq,
    bne_iff_ne, ne_eq]
  constructor
  · rintro ⟨⟨h1, h2⟩, h3⟩
    exact ⟨h1, h3, by omega⟩
  · rintro ⟨h1, h3, h2⟩
    exact ⟨⟨h1, by omega⟩, h3⟩

theorem openRecordFor_iff (rid uid : Nat) (r : AttendanceRecord) :
    openRecordFor rid uid r = true ↔
      r.id = rid ∧ r.user_id = uid ∧ r.check_out_time = none := by
  constructor
  · intro h
    simp only [openRecordFor, Bool.and_eq_true, beq_iff_eq] at h
    exact ⟨h.1.1, h.1.2, h.2⟩
  · rintro ⟨h1, h2, h3⟩
    simp [openRecordFor, h1, h2, h3]

/-! ### Row-level facts about the expiry update -/

theorem expireOne_absent_fixed (now : Int) (r : AttendanceRecord)
    (h : r.status = "absent") : expireOne now r = r := by
  have hf : expiryDue now r = false := by simp [expiryDue, h]
  simp [expireOne, hf]

theorem expireOne_closed_fixed (now : Int) (r : AttendanceRecord) (t : Int)
    (h : r.check_out_time = some t) : expireOne now r = r := by
  have hf : expiryDue now r = false := by simp [expiryDue, h]
  simp [expireOne, hf]

theorem expireOne_self_idem (now : Int) (r : AttendanceRecord) :
    expireOne now (expireOne now r) = expireOne now r := by
  by_cases h : expiryDue now r = true
  · have h1 : expireOne now r =
        { r with status := "absent",
                 check_out_time := some (r.check_in_time + 7200) } := by
      simp [expireOne, h]
    rw [h1]
    exact expireOne_closed_fixed now _ _ rfl
  · have h1 : expireOne now r = r := by simp [expireOne, h]
    rw [h1]
    exact h1

/-! ### Claim theorems -/

/-- C2: the auto-expiry sweep updates exactly every record with null
check-out, status not already `absent`, and check-in more than 120
minutes (7200 seconds) before the current time, setting its check-out to
check-in + 120 minutes and its status to `absent`; every record not
satisfying that predicate is left unchanged. -/
theorem auto_expire_exact (now : Int) (db : AttendanceDb) :
    (auto_expire_sessions now db).length = db.length ∧
    ∀ (i : Nat) (h : i < db.length)
      (h2 : i < (auto_expire_sessions now db).length),
      ((db.get ⟨i, h⟩).check_out_time = none ∧
          (db.get ⟨i, h⟩).status ≠ "absent" ∧
          (db.get ⟨i, h⟩).check_in_time + 7200 < now →
        (auto_expire_sessions now db).get ⟨i, h2⟩ =
          { db.get ⟨i, h⟩ with
              status := "absent",
              check_out_time := some ((db.get ⟨i, h⟩).check_in_time + 7200) }) ∧
      (¬ ((db.get ⟨i, h⟩).check_out_time = none ∧
          (db.get ⟨i, h⟩).status ≠ "absent" ∧
          (db.get ⟨i, h⟩).check_in_time + 7200 < now) →
        (auto_expire_sessions now db).get ⟨i, h2⟩ = db.get ⟨i, h⟩) := by
  refine ⟨List.length_map _ _, fun i h h2 => ?_⟩
  have hg : (auto_expire_sessions now db).get ⟨i, h2⟩
      = expireOne now (db.get ⟨i, h⟩) := get_of_map _ _ _ h h2
  constructor
  · intro hp
    have hdue : expiryDue now (db.get ⟨i, h⟩) = true := (expiryDue_iff now _).2 hp
    rw [hg]
    unfold expireOne
    rw [if_pos hdue]
  · intro hp
    have hdue : ¬ expiryDue now (db.get ⟨i, h⟩) = true :=
      fun ht => hp ((expiryDue_iff now _).1 ht)
    rw [hg]
    unfold expireOne
    rw [if_neg hdue]

/-- Witness for C2: evaluated 121 minutes after check-in, `demoOpen`
becomes `absent` with check-out at check-in + 120 minutes; `demoRecent`,
evaluated 119 minutes after its check-in, is unchanged. -/
theorem auto_expire_exact_witness :
    (auto_expire_sessions 7260 [demoOpen, demoRecent]).get ⟨0, by decide⟩ =
      { demoOpen with status := "absent", check_out_time := some 7200 } ∧
    (auto_expire_sessions 7260 [demoOpen, demoRecent]).get ⟨1, by decide⟩ =
      demoRecent := by
  constructor
  · exact ((auto_expire_exact 7260 [demoOpen, demoRecent]).2 0 (by decide)
      (by decide)).1 (by decide)
  · exact ((auto_expire_exact 7260 [demoOpen, demoRecent]).2 1 (by decide)
      (by decide)).2 (by decide)

/-- C5: the auto-expiry sweep is idempotent: a second sweep at the same
time is a no-op on the whole table; moreover a row whose status is
already `absent` (in particular one just expired by a first sweep, since
expiry sets status `absent`) is untouched by a sweep at any later time,
as is the image of any row the first sweep rewrote. -/
theorem auto_expire_idempotent (now now2 : Int) (db : AttendanceDb) :
    auto_expire_sessions now (auto_expire_sessions now db) =
      auto_expire_sessions now db ∧
    (∀ r : AttendanceRecord, r.status = "absent" → expireOne now2 r = r) ∧
    (∀ r : AttendanceRecord, expiryDue now r = true →
      expireOne now2 (expireOne now r) = expireOne now r) := by
  refine ⟨?_, fun r h => expireOne_absent_fixed now2 r h, fun r h => ?_⟩
  · unfold auto_expire_sessions
    rw [List.map_map]
    exact List.map_congr_left (fun r _ => expireOne_self_idem now r)
  · have h1 : expireOne now r =
        { r with status := "absent",
                 check_out_time := some (r.check_in_time + 7200) } := by
      simp [expireOne, h]
    rw [h1]
    exact expireOne_closed_fixed now2 _ _ rfl

/-- Witness for C5: both sweeps concretely evaluated on `demoOpen` (due
for expiry at time 7260) and `demoAbsent`. -/
theorem auto_expire_idempotent_witness :
    auto_expire_sessions 7260 (auto_expire_sessions 7260 [demoOpen]) =
      auto_expire_sessions 7260 [demoOpen] ∧
    expireOne 999999 demoAbsent = demoAbsent ∧
    expireOne 999999 (expireOne 7260 demoOpen) = expireOne 7260 demoOpen := by
  obtain ⟨h1, h2, h3⟩ := auto_expire_idempotent 7260 999999 [demoOpen]
  exact ⟨h1, h2 demoAbsent rfl, h3 demoOpen (by decide)⟩

/-- C1: a user who already has a record whose check-in timestamp falls
within the current calendar day (any status, open or closed) cannot check
in again: the check-in transaction fails with the 400 conflict error,
creates no new attendance row, and leaves the table unchanged. -/
theorem check_in_conflict (now : Int) (uid newId : Nat) (lat lon : Option Int)
    (db : AttendanceDb) (r : AttendanceRecord) (hmem : r ∈ db)
    (howner : r.user_id = uid) (hlo : dayStart now ≤ r.check_in_time)
    (hhi : r.check_in_time < dayStart now + 86400) :
    check_in now uid newId lat lon db = (Except.error ApiError.conflict, db) := by
  have hany : db.any (sameDayRow now uid) = true :=
    List.any_eq_true.2 ⟨r, hmem, by simp [sameDayRow, howner, hlo]⟩
  simp [check_in, hany]

/-- Witness for C1: with `demoOpen` (user 7, checked in at second 0 of
the day) already present, a second check-in by user 7 at second 100 of
the same day is rejected with the conflict error and the table is
unchanged. -/
theorem check_in_conflict_witness :
    check_in 100 7 99 none none [demoOpen] =
      (Except.error ApiError.conflict, [demoOpen]) :=
  check_in_conflict 100 7 99 none none [demoOpen] demoOpen
    (List.mem_cons_self _ _) rfl (by decide) (by decide)

/-- C3 counterexample: with day start 0, a check-in at exactly 09:00:00
(`now = 32400`) is classified `present`, not `late`: the code's SQL test
`NOW() > DATE_TRUNC('day', NOW()) + INTERVAL '9 hour'` is strict. -/
theorem check_in_at_threshold_is_present :
    ((check_in 32400 7 1 none none []).2.map AttendanceRecord.status) =
      ["present"] := rfl

/-- C3 amended: check-in classifies by comparing the current time against
the day start plus the 9-hour threshold with strict `>` semantics: when no
same-day record blocks the insert, a check-in at or before exactly
09:00:00 after day start (so in particular at 08:59:59) is classified
`present`, and one strictly after the threshold is classified `late`. -/
theorem check_in_late_strict (now : Int) (uid newId : Nat)
    (lat lon : Option Int) (db : AttendanceDb)
    (hno : db.any (sameDayRow now uid) = false) :
    ∃ r : AttendanceRecord,
      (check_in now uid newId lat lon db).1 = Except.ok r ∧
      (check_in now uid newId lat lon db).2 = db ++ [r] ∧
      (now ≤ dayStart now + 32400 → r.status = "present") ∧
      (dayStart now + 32400 < now → r.status = "late") := by
  by_cases hc : dayStart now + 32400 < now
  · refine ⟨{ id := newId, user_id := uid, check_in_time := now,
              check_out_time := none, status := "late", notes := none,
              latitude := lat, longitude := lon, created_at := now },
      ?_, ?_, fun hle => absurd hc (by omega), fun _ => rfl⟩
    · simp [check_in, hno, hc]
    · simp [check_in, hno, hc]
  · refine ⟨{ id := newId, user_id := uid, check_in_time := now,
              check_out_time := none, status := "present", notes := none,
              latitude := lat, longitude := lon, created_at := now },
      ?_, ?_, fun _ => rfl, fun hgt => absurd hgt hc⟩
    · simp [check_in, hno, hc]
    · simp [check_in, hno, hc]

/-- Witness for C3 (amended): a check-in one minute after the 9-hour
threshold into an empty table. -/
theorem check_in_late_strict_witness :
    ∃ r : AttendanceRecord,
      (check_in 32460 7 1 none none []).1 = Except.ok r ∧
      (check_in 32460 7 1 none none []).2 = [] ++ [r] ∧
      (32460 ≤ dayStart 32460 + 32400 → r.status = "present") ∧
      (dayStart 32460 + 32400 < 32460 → r.status = "late") :=
  check_in_late_strict 32460 7 1 none none [] rfl

/-- C4: checkout succeeds iff some record matches both the given record
id and the calling user's id with check-out still null; on success the
matching record's check-out is set to the current time and only matching
records change, and otherwise the 400 "no open check-in" error is
returned with the table unchanged. -/
theorem check_out_spec (now : Int) (rid uid : Nat) (db : AttendanceDb) :
    ((¬ ∃ r ∈ db, r.id = rid ∧ r.user_id = uid ∧ r.check_out_time = none) →
        check_out now rid uid db = (Except.error ApiError.noOpenRecord, db)) ∧
    ((∃ r ∈ db, r.id = rid ∧ r.user_id = uid ∧ r.check_out_time = none) →
        ∃ r ∈ db, r.id = rid ∧ r.user_id = uid ∧ r.check_out_time = none ∧
          (check_out now rid uid db).1 =
            Except.ok { r with check_out_time := some now }) ∧
    (check_out now rid uid db).2.length = db.length ∧
    ∀ (i : Nat) (h : i < db.length)
      (h2 : i < (check_out now rid uid db).2.length),
      ((db.get ⟨i, h⟩).id = rid ∧ (db.get ⟨i, h⟩).user_id = uid ∧
          (db.get ⟨i, h⟩).check_out_time = none →
        (check_out now rid uid db).2.get ⟨i, h2⟩ =
          { db.get ⟨i, h⟩ with check_out_time := some now }) ∧
      (¬ ((db.get ⟨i, h⟩).id = rid ∧ (db.get ⟨i, h⟩).user_id = uid ∧
          (db.get ⟨i, h⟩).check_out_time = none) →
        (check_out now rid uid db).2.get ⟨i, h2⟩ = db.get ⟨i, h⟩) := by
  cases hf : db.find? (openRecordFor rid uid) with
  | none =>
      have hnone : ∀ x ∈ db, ¬ openRecordFor rid uid x = true :=
        List.find?_eq_none.1 hf
      have h2eq : check_out now rid uid db =
          (Except.error ApiError.noOpenRecord, db) := by
        simp [check_out, hf]
      refine ⟨fun _ => h2eq, fun hex => ?_, ?_, fun i h h2 => ⟨fun hp => ?_, fun _ => ?_⟩⟩
      · obtain ⟨r, hr, hp⟩ := hex
        exact absurd ((openRecordFor_iff rid uid r).2 hp) (hnone r hr)
      · rw [h2eq]
      · exact absurd ((openRecordFor_iff rid uid _).2 hp)
          (hnone _ (List.get_mem db i h))
      · exact get_congr (by rw [h2eq]) i h2 h
  | some r =>
      have hp : openRecordFor rid uid r = true := List.find?_some hf
      have hmem : r ∈ db := List.mem_of_find?_eq_some hf
      have h2eq : (check_out now rid uid db).2 =
          db.map (checkOutRow now rid uid) := by
        simp [check_out, hf]
      have h1eq : (check_out now rid uid db).1 =
          Except.ok { r with check_out_time := some now } := by
        simp [check_out, hf]
      obtain ⟨hid, huid, hout⟩ := (openRecordFor_iff rid uid r).1 hp
      refine ⟨fun hno => absurd ⟨r, hmem, hid, huid, hout⟩ hno,
        fun _ => ⟨r, hmem, hid, huid, hout, h1eq⟩, ?_, fun i h h2 => ?_⟩
      · rw [h2eq, List.length_map]
      · have h2' : i < (db.map (checkOutRow now rid uid)).length := by
          rwa [List.length_map]
        have hg : (check_out now rid uid db).2.get ⟨i, h2⟩ =
            checkOutRow now rid uid (db.get ⟨i, h⟩) := by
          rw [get_congr h2eq i h2 h2']
          exact get_of_map (checkOutRow now rid uid) db i h h2'
        constructor
        · intro hmatch
          rw [hg]
          unfold checkOutRow
          rw [if_pos ((openRecordFor_iff rid uid _).2 hmatch)]
        · intro hmatch
          rw [hg]
          unfold checkOutRow
          rw [if_neg (fun hc => hmatch ((openRecordFor_iff rid uid _).1 hc))]

/-- Witness for C4: checking out `demoOpen` (record 1, user 7) at time
500 succeeds, returns the record with check-out 500, and rewrites the
single table row accordingly. -/
theorem check_out_spec_witness :
    (check_out 500 1 7 [demoOpen]).1 =
      Except.ok { demoOpen with check_out_time := some 500 } ∧
    (check_out 500 1 7 [demoOpen]).2.get ⟨0, by decide⟩ =
      { demoOpen with check_out_time := some 500 } := by
  obtain ⟨-, h2, -, h4⟩ := check_out_spec 500 1 7 [demoOpen]
  constructor
  · obtain ⟨r, hr, hid, huid, hout, h1⟩ := h2 ⟨demoOpen, by simp, rfl, rfl, rfl⟩
    have hrd : r = demoOpen := by simpa using hr
    rw [h1, hrd]
  · exact (h4 0 (by decide) (by decide)).1 ⟨rfl, rfl, rfl⟩

/-- C7: an attendance record with a non-null check-out timestamp is
terminal: the expiry and checkout row updates leave it unchanged, and it
survives unchanged (in particular its check-out is never cleared or
overwritten) through the auto-expiry sweep, the checkout transaction and
the check-in transaction. -/
theorem closed_record_terminal (r : AttendanceRecord) (t : Int)
    (hclosed : r.check_out_time = some t) :
    (∀ now : Int, expireOne now r = r) ∧
    (∀ (now : Int) (rid uid : Nat), checkOutRow now rid uid r = r) ∧
    (∀ (now : Int) (db : AttendanceDb), r ∈ db →
      r ∈ auto_expire_sessions now db) ∧
    (∀ (now : Int) (rid uid : Nat) (db : AttendanceDb), r ∈ db →
      r ∈ (check_out now rid uid db).2) ∧
    (∀ (now : Int) (uid newId : Nat) (lat lon : Option Int)
      (db : AttendanceDb), r ∈ db →
      r ∈ (check_in now uid newId lat lon db).2) := by
  have hrow : ∀ (now : Int) (rid uid : Nat), checkOutRow now rid uid r = r := by
    intro now rid uid
    have : openRecordFor rid uid r = false := by
      simp [openRecordFor, hclosed]
    simp [checkOutRow, this]
  refine ⟨fun now => expireOne_closed_fixed now r t hclosed, hrow,
    fun now db hmem => ?_, fun now rid uid db hmem => ?_,
    fun now uid newId lat lon db hmem => ?_⟩
  · have := List.mem_map_of_mem (expireOne now) hmem
    rwa [expireOne_closed_fixed now r t hclosed] at this
  · cases hf : db.find? (openRecordFor rid uid) with
    | none => simpa [check_out, hf] using hmem
    | some s =>
        have : checkOutRow now rid uid r ∈ db.map (checkOutRow now rid uid) :=
          List.mem_map_of_mem _ hmem
        rw [hrow now rid uid] at this
        simpa [check_out, hf] using this
  · by_cases hany : db.any (sameDayRow now uid) = true
    · simpa [check_in, hany] using hmem
    · have hf : db.any (sameDayRow now uid) = false := by
        simpa using hany
      simp only [check_in, hf]
      simpa using Or.inl hmem

/-- Witness for C7: the closed row `demoClosed` is untouched by the
expiry update, the checkout row update, and a full sweep. -/
theorem closed_record_terminal_witness :
    expireOne 999999 demoClosed = demoClosed ∧
    checkOutRow 500 3 9 demoClosed = demoClosed ∧
    demoClosed ∈ auto_expire_sessions 999999 [demoClosed] := by
  obtain ⟨h1, h2, h3, -, -⟩ := closed_record_terminal demoClosed 60 rfl
  exact ⟨h1 999999, h2 500 3 9, h3 999999 [demoClosed] (by simp)⟩

/-- C10: the checkout transaction's table effect is exactly the per-row
`checkOutRow` map, and `checkOutRow` can change only the check-out field:
id, user id, check-in time, status (so a record classified `late` stays
`late`), notes, latitude, longitude and creation time are always
preserved. -/
theorem check_out_frame (now : Int) (rid uid : Nat) (db : AttendanceDb) :
    (check_out now rid uid db).2 = db.map (checkOutRow now rid uid) ∧
    ∀ r : AttendanceRecord,
      (checkOutRow now rid uid r).id = r.id ∧
      (checkOutRow now rid uid r).user_id = r.user_id ∧
      (checkOutRow now rid uid r).check_in_time = r.check_in_time ∧
      (checkOutRow now rid uid r).status = r.status ∧
      (checkOutRow now rid uid r).notes = r.notes ∧
      (checkOutRow now rid uid r).latitude = r.latitude ∧
      (checkOutRow now rid uid r).longitude = r.longitude ∧
      (checkOutRow now rid uid r).created_at = r.created_at := by
  constructor
  · cases hf : db.find? (openRecordFor rid uid) with
    | none =>
        have hfix : ∀ a ∈ db, checkOutRow now rid uid a = a := by
          intro a ha
          have := List.find?_eq_none.1 hf a ha
          simp [checkOutRow, this]
        simp only [check_out, hf]
        exact (map_eq_self_of_fixed _ db hfix).symm
    | some s => simp [check_out, hf]
  · intro r
    by_cases hm : openRecordFor rid uid r = true <;>
      simp [checkOutRow, hm]

/-- C8: admin authorization resolves the role preferentially from the
profile row (the row's role wins over any metadata role); with no profile
row, or on a persistence error during the lookup, it falls back to the
identity-provider metadata role, defaulting to `member`, without failing
the request; it then fails with the 403 forbidden error iff the resolved
role is not `admin`, and succeeds iff it is. -/
theorem require_admin_spec :
    (∀ (role : String) (metaRole : Option String),
        resolveRole (LookupResult.found role) metaRole = role) ∧
    (∀ metaRole : Option String,
        resolveRole LookupResult.missing metaRole = metaRole.getD "member") ∧
    (∀ metaRole : Option String,
        resolveRole LookupResult.dbError metaRole = metaRole.getD "member") ∧
    (∀ (lookup : LookupResult) (metaRole : Option String),
        require_admin lookup metaRole = Except.error ApiError.forbidden ↔
          resolveRole lookup metaRole ≠ "admin") ∧
    (∀ (lookup : LookupResult) (metaRole : Option String),
        require_admin lookup metaRole = Except.ok () ↔
          resolveRole lookup metaRole = "admin") := by
  refine ⟨fun _ _ => rfl, fun _ => rfl, fun _ => rfl,
    fun lookup mr => ?_, fun lookup mr => ?_⟩
  · by_cases h : resolveRole lookup mr = "admin" <;> simp [require_admin, h]
  · by_cases h : resolveRole lookup mr = "admin" <;> simp [require_admin, h]

/-- C9 counterexample: `approve_leave` transitions a leave that is
already `approved` once more: requesting `rejected` on `demoLeave`
succeeds and flips its status, because the update's `WHERE` clause tests
only the id, never the prior status. -/
theorem approve_leave_retransitions :
    (approve_leave 1000 5 9 "rejected" none [demoLeave]).2.map
        LeaveRow.status = ["rejected"] := rfl

/-- C9 amended: the approval operation sets the existing leave's status
to the requested value (restricted to `approved` or `rejected` by the
request model) and records the administrator as approver regardless of
the prior status; `pending` is not required, so a leave already
`approved` or `rejected` is transitioned again by a further call.  Rows
with a different id are unchanged. -/
theorem approve_leave_sets_status (now : Int) (leaveId adminId : Nat)
    (newStatus : String) (note : Option String) (db : LeaveDb) :
    (approve_leave now leaveId adminId newStatus note db).2.length =
      db.length ∧
    ∀ (i : Nat) (h : i < db.length)
      (h2 : i < (approve_leave now leaveId adminId newStatus note db).2.length),
      ((db.get ⟨i, h⟩).id = leaveId →
        (approve_leave now leaveId adminId newStatus note db).2.get ⟨i, h2⟩ =
          { db.get ⟨i, h⟩ with
              status := newStatus, admin_note := note,
              approved_by := some adminId, updated_at := now }) ∧
      ((db.get ⟨i, h⟩).id ≠ leaveId →
        (approve_leave now leaveId adminId newStatus note db).2.get ⟨i, h2⟩ =
          db.get ⟨i, h⟩) := by
  cases hf : db.find? (fun l => l.id == leaveId) with
  | none =>
      have hnone : ∀ x ∈ db, ¬ (x.id == leaveId) = true :=
        List.find?_eq_none.1 hf
      have h2eq : (approve_leave now leaveId adminId newStatus note db).2 =
          db := by
        simp [approve_leave, hf]
      refine ⟨by rw [h2eq], fun i h h2 => ⟨fun hp => ?_, fun _ => ?_⟩⟩
      · exact absurd (beq_iff_eq.2 hp) (hnone _ (List.get_mem db i h))
      · exact get_congr h2eq i h2 h
  | some l =>
      have h2eq : (approve_leave now leaveId adminId newStatus note db).2 =
          db.map (approveRow now leaveId adminId newStatus note) := by
        simp [approve_leave, hf]
      refine ⟨by rw [h2eq, List.length_map], fun i h h2 => ?_⟩
      have h2' : i <
          (db.map (approveRow now leaveId adminId newStatus note)).length := by
        rwa [List.length_map]
      have hg : (approve_leave now leaveId adminId newStatus note db).2.get
            ⟨i, h2⟩ =
          approveRow now leaveId adminId newStatus note (db.get ⟨i, h⟩) := by
        rw [get_congr h2eq i h2 h2']
        exact get_of_map _ db i h h2'
      constructor
      · intro hp
        rw [hg]
        unfold approveRow
        rw [if_pos (beq_iff_eq.2 hp)]
      · intro hp
        rw [hg]
        unfold approveRow
        rw [if_neg (fun hc => hp (beq_iff_eq.1 hc))]

/-- Witness for C9 (amended): rejecting the already-approved `demoLeave`
sets status `rejected`, approver 9 and update time 1000. -/
theorem approve_leave_sets_status_witness :
    (approve_leave 1000 5 9 "rejected" none [demoLeave]).2.get
        ⟨0, by decide⟩ =
      { demoLeave with status := "rejected", admin_note := none,
                       approved_by := some 9, updated_at := 1000 } :=
  ((approve_leave_sets_status 1000 5 9 "rejected" none [demoLeave]).2 0
      (by decide) (by decide)).1 rfl

/-- C6: for every candidate IP string and allowlist: an empty allowlist
admits unconditionally; with a non-empty allowlist a candidate that fails
to parse is denied, and otherwise admission holds iff some entry admits
the candidate, where a malformed entry (failed network or address parse)
admits nothing — so it is skipped without aborting the remaining
entries — a CIDR entry (containing `/`) admits by containment, and a
bare-IP entry admits by exact equality. -/
theorem is_office_network_spec {Ip Net : Type} [DecidableEq Ip]
    (parseAddr : String → Option Ip) (parseNetwork : String → Option Net)
    (containsIp : Net → Ip → Bool) (allowlist : List String) (ip : String) :
    (allowlist = [] →
        is_office_network parseAddr parseNetwork containsIp allowlist ip =
          true) ∧
    (allowlist ≠ [] → parseAddr ip = none →
        is_office_network parseAddr parseNetwork containsIp allowlist ip =
          false) ∧
    (∀ cip : Ip, allowlist ≠ [] → parseAddr ip = some cip →
        (is_office_network parseAddr parseNetwork containsIp allowlist ip =
            true ↔
          ∃ e ∈ allowlist,
            entryAdmits parseAddr parseNetwork containsIp cip e = true)) ∧
    (∀ (e : String) (cip : Ip), containsSlash e = true → parseNetwork e = none →
        entryAdmits parseAddr parseNetwork containsIp cip e = false) ∧
    (∀ (e : String) (cip : Ip), containsSlash e = false → parseAddr e = none →
        entryAdmits parseAddr parseNetwork containsIp cip e = false) ∧
    (∀ (e : String) (net : Net) (cip : Ip), containsSlash e = true →
        parseNetwork e = some net →
        entryAdmits parseAddr parseNetwork containsIp cip e =
          containsIp net cip) ∧
    (∀ (e : String) (a cip : Ip), containsSlash e = false →
        parseAddr e = some a →
        (entryAdmits parseAddr parseNetwork containsIp cip e = true ↔
          cip = a)) := by
  have hne : allowlist ≠ [] → allowlist.isEmpty = false := by
    intro h
    cases allowlist with
    | nil => exact absurd rfl h
    | cons a l => rfl
  refine ⟨?_, ?_, ?_, ?_, ?_, ?_, ?_⟩
  · intro h
    simp [is_office_network, h]
  · intro h hp
    simp [is_office_network, hne h, hp]
  · intro cip h hp
    simp [is_office_network, hne h, hp, List.any_eq_true]
  · intro e cip h hp
    simp [entryAdmits, h, hp]
  · intro e cip h hp
    simp [entryAdmits, h, hp]
  · intro e net cip h hp
    simp [entryAdmits, h, hp]
  · intro e a cip h hp
    simp [entryAdmits, h, hp]

/-- Witness for C6 on the toy instantiation: allowlist
`["garbage", "5/9"]` (one malformed entry, one range) against candidate
`"7"`, which parses to the address 7: the admission characterization
instance holds, and both sides are concretely true since the range
`[5, 9]` contains 7 while the malformed entry is skipped. -/
theorem is_office_network_spec_witness :
    (is_office_network wParseAddr wParseNetwork wContains
        ["garbage", "5/9"] "7" = true ↔
      ∃ e ∈ (["garbage", "5/9"] : List String),
        entryAdmits wParseAddr wParseNetwork wContains 7 e = true) ∧
    is_office_network wParseAddr wParseNetwork wContains
        ["garbage", "5/9"] "7" = true :=
  ⟨(is_office_network_spec wParseAddr wParseNetwork wContains
      ["garbage", "5/9"] "7").2.2.1 7 (by decide) rfl, by decide⟩
